import Mathlib

/-
Verification of the fault-classification and HTTP error-response pipeline of
an Express/TypeScript starter repository.  The definitions below are a shallow
embedding of the code in src/middlewares/asyncHandler.middleware.ts,
src/middlewares/notFound.middleware.ts, src/common/utils/app-error.ts,
src/common/utils/get-env.ts and src/common/utils/process-handlers.ts.
-/

/-- JSON-like value, modelling the untyped `details` payloads (`unknown` in the
source). -/
inductive Dval where
  | str (s : String)
  | num (n : Int)
  | arr (elems : List Dval)
  | obj (fields : List (String × Dval))

/-- One entry of a data-layer (mongoose) validation error set: the source reads
`e.path` and `e.message` for each nested field error. -/
structure FieldErr where
  path : String
  message : String

/-- A JavaScript `code` property, which in the wild is either a number (11000
for mongo duplicate keys) or a string (multer LIMIT_* codes). -/
inductive JsCode where
  | num (n : Int)
  | str (s : String)
deriving DecidableEq

/-- Properties a generic JavaScript Error object may carry, as inspected by the
errorHandler cascade: `name`, `message`, `stack`, and the optional expando
properties `code`, `statusCode` and `keyPattern`. -/
structure ErrProps where
  name : String
  message : String
  stack : Option String
  code : Option JsCode
  statusCode : Option Nat
  keyPattern : Option (List String)

/-- The fields of an AppError instance (src/common/utils/app-error.ts):
message, statusCode, errorCode, details, plus the inherited Error fields
`name` (set to the constructor name) and `stack` (captured at construction),
and the class field `isOperational`. -/
structure AppErrorData where
  name : String
  message : String
  statusCode : Nat
  errorCode : String
  details : Option Dval
  stack : Option String
  isOperational : Bool

/-- A raised fault, as discriminated by the instanceof checks of the
errorHandler cascade.  `nonError` models a thrown value that is not an Error
instance (e.g. a thrown string), for which every `instanceof` test is false. -/
inductive Fault where
  | appError (a : AppErrorData)
  | mongooseValidation (errs : List FieldErr) (p : ErrProps)
  | mongooseCast (path : String) (value : String) (p : ErrProps)
  | jsonSyntaxError (hasBody : Bool) (p : ErrProps)
  | otherError (p : ErrProps)
  | nonError (message : Option String)

/-- Modelled from the spec: src/configs/http.config.ts is not among the
provided sources; the HTTPSTATUS constants used by the provided files are
rendered with the numeric statuses of the table in section 4.1 of the spec. -/
def HTTPSTATUS.BAD_REQUEST : Nat := 400

/-- Modelled from the spec: see HTTPSTATUS.BAD_REQUEST. -/
def HTTPSTATUS.UNAUTHORIZED : Nat := 401

/-- Modelled from the spec: see HTTPSTATUS.BAD_REQUEST. -/
def HTTPSTATUS.FORBIDDEN : Nat := 403

/-- Modelled from the spec: see HTTPSTATUS.BAD_REQUEST. -/
def HTTPSTATUS.NOT_FOUND : Nat := 404

/-- Modelled from the spec: see HTTPSTATUS.BAD_REQUEST. -/
def HTTPSTATUS.METHOD_NOT_ALLOWED : Nat := 405

/-- Modelled from the spec: see HTTPSTATUS.BAD_REQUEST. -/
def HTTPSTATUS.CONFLICT : Nat := 409

/-- Modelled from the spec: see HTTPSTATUS.BAD_REQUEST. -/
def HTTPSTATUS.UNPROCESSABLE_ENTITY : Nat := 422

/-- Modelled from the spec: see HTTPSTATUS.BAD_REQUEST. -/
def HTTPSTATUS.TOO_MANY_REQUESTS : Nat := 429

/-- Modelled from the spec: see HTTPSTATUS.BAD_REQUEST. -/
def HTTPSTATUS.INTERNAL_SERVER_ERROR : Nat := 500

/-- Modelled from the spec: see HTTPSTATUS.BAD_REQUEST. -/
def HTTPSTATUS.NOT_IMPLEMENTED : Nat := 501

/-- Modelled from the spec: see HTTPSTATUS.BAD_REQUEST. -/
def HTTPSTATUS.BAD_GATEWAY : Nat := 502

/-- Modelled from the spec: see HTTPSTATUS.BAD_REQUEST. -/
def HTTPSTATUS.SERVICE_UNAVAILABLE : Nat := 503

/-- Modelled from the spec: see HTTPSTATUS.BAD_REQUEST. -/
def HTTPSTATUS.GATEWAY_TIMEOUT : Nat := 504

/- Error code identifiers from src/common/enums/error-code.enum.ts (each enum
member maps to the string equal to its own name). -/

def ErrorCodeEnum.USR_400 : String := "USR_400"

def ErrorCodeEnum.USR_404 : String := "USR_404"

def ErrorCodeEnum.USR_405 : String := "USR_405"

def ErrorCodeEnum.USR_409 : String := "USR_409"

def ErrorCodeEnum.USR_422 : String := "USR_422"

def ErrorCodeEnum.AUTH_401 : String := "AUTH_401"

def ErrorCodeEnum.AUTH_403 : String := "AUTH_403"

def ErrorCodeEnum.AUTH_INVALID_TOKEN : String := "AUTH_INVALID_TOKEN"

def ErrorCodeEnum.VAL_400 : String := "VAL_400"

def ErrorCodeEnum.VAL_INVALID_FORMAT : String := "VAL_INVALID_FORMAT"

def ErrorCodeEnum.RATE_429 : String := "RATE_429"

def ErrorCodeEnum.DB_500 : String := "DB_500"

def ErrorCodeEnum.DB_CONNECTION_ERROR : String := "DB_CONNECTION_ERROR"

def ErrorCodeEnum.DB_DUPLICATE_KEY : String := "DB_DUPLICATE_KEY"

def ErrorCodeEnum.DB_VALIDATION_ERROR : String := "DB_VALIDATION_ERROR"

def ErrorCodeEnum.EXT_API_ERROR : String := "EXT_API_ERROR"

def ErrorCodeEnum.EXT_503 : String := "EXT_503"

def ErrorCodeEnum.EXT_504 : String := "EXT_504"

def ErrorCodeEnum.EXT_SERVICE_UNAVAILABLE : String := "EXT_SERVICE_UNAVAILABLE"

def ErrorCodeEnum.SRV_500 : String := "SRV_500"

def ErrorCodeEnum.SRV_501 : String := "SRV_501"

def ErrorCodeEnum.FILE_UPLOAD_ERROR : String := "FILE_UPLOAD_ERROR"

/-- Shared body of every AppError subclass constructor: `super(message,
statusCode, errorCode, details)` plus `this.name = this.constructor.name`,
`this.isOperational = true` and the captured stack trace (passed here as an
ambient argument, since `Error.captureStackTrace` reads the runtime stack). -/
def mkAppErrorNamed (name : String) (message : String) (statusCode : Nat)
    (errorCode : String) (details : Option Dval) (stack : Option String) :
    AppErrorData :=
  { name := name, message := message, statusCode := statusCode,
    errorCode := errorCode, details := details, stack := stack,
    isOperational := true }

/-- The base AppError constructor, with its default statusCode
(INTERNAL_SERVER_ERROR) and errorCode (SRV_500). -/
def mkAppError (message : String) (statusCode : Option Nat)
    (errorCode : Option String) (details : Option Dval)
    (stack : Option String) : AppErrorData :=
  mkAppErrorNamed "AppError" message
    (statusCode.getD HTTPSTATUS.INTERNAL_SERVER_ERROR)
    (errorCode.getD ErrorCodeEnum.SRV_500) details stack

def mkBadRequestException (message : Option String) (errorCode : Option String)
    (details : Option Dval) (stack : Option String) : AppErrorData :=
  mkAppErrorNamed "BadRequestException"
    (message.getD "The request is invalid or malformed")
    HTTPSTATUS.BAD_REQUEST (errorCode.getD ErrorCodeEnum.USR_400) details stack

def mkUnauthorizedException (message : Option String)
    (errorCode : Option String) (details : Option Dval)
    (stack : Option String) : AppErrorData :=
  mkAppErrorNamed "UnauthorizedException"
    (message.getD "Authentication required. Please provide valid credentials")
    HTTPSTATUS.UNAUTHORIZED (errorCode.getD ErrorCodeEnum.AUTH_401) details stack

def mkForbiddenException (message : Option String) (errorCode : Option String)
    (details : Option Dval) (stack : Option String) : AppErrorData :=
  mkAppErrorNamed "ForbiddenException"
    (message.getD "You do not have permission to access this resource")
    HTTPSTATUS.FORBIDDEN (errorCode.getD ErrorCodeEnum.AUTH_403) details stack

def mkNotFoundException (message : Option String) (errorCode : Option String)
    (details : Option Dval) (stack : Option String) : AppErrorData :=
  mkAppErrorNamed "NotFoundException"
    (message.getD "The requested resource was not found")
    HTTPSTATUS.NOT_FOUND (errorCode.getD ErrorCodeEnum.USR_404) details stack

def mkMethodNotAllowedException (message : Option String)
    (errorCode : Option String) (details : Option Dval)
    (stack : Option String) : AppErrorData :=
  mkAppErrorNamed "MethodNotAllowedException"
    (message.getD "The HTTP method is not allowed for this endpoint")
    HTTPSTATUS.METHOD_NOT_ALLOWED (errorCode.getD ErrorCodeEnum.USR_405)
    details stack

def mkConflictException (message : Option String) (errorCode : Option String)
    (details : Option Dval) (stack : Option String) : AppErrorData :=
  mkAppErrorNamed "ConflictException"
    (message.getD "The request conflicts with the current state of the resource")
    HTTPSTATUS.CONFLICT (errorCode.getD ErrorCodeEnum.USR_409) details stack

def mkUnprocessableEntityException (message : Option String)
    (errorCode : Option String) (details : Option Dval)
    (stack : Option String) : AppErrorData :=
  mkAppErrorNamed "UnprocessableEntityException"
    (message.getD "The request is well-formed but contains semantic errors")
    HTTPSTATUS.UNPROCESSABLE_ENTITY (errorCode.getD ErrorCodeEnum.USR_422)
    details stack

def mkTooManyRequestsException (message : Option String)
    (errorCode : Option String) (details : Option Dval)
    (stack : Option String) : AppErrorData :=
  mkAppErrorNamed "TooManyRequestsException"
    (message.getD "Too many requests. Please try again later")
    HTTPSTATUS.TOO_MANY_REQUESTS (errorCode.getD ErrorCodeEnum.RATE_429)
    details stack

def mkValidationException (message : Option String) (errorCode : Option String)
    (details : Option Dval) (stack : Option String) : AppErrorData :=
  mkAppErrorNamed "ValidationException"
    (message.getD "Validation failed. Please check your input")
    HTTPSTATUS.BAD_REQUEST (errorCode.getD ErrorCodeEnum.VAL_400) details stack

def mkAuthenticationException (message : Option String)
    (errorCode : Option String) (details : Option Dval)
    (stack : Option String) : AppErrorData :=
  mkAppErrorNamed "AuthenticationException"
    (message.getD "Authentication failed. Please check your credentials")
    HTTPSTATUS.UNAUTHORIZED (errorCode.getD ErrorCodeEnum.AUTH_401) details stack

def mkAuthorizationException (message : Option String)
    (errorCode : Option String) (details : Option Dval)
    (stack : Option String) : AppErrorData :=
  mkAppErrorNamed "AuthorizationException"
    (message.getD "You do not have permission to perform this action")
    HTTPSTATUS.FORBIDDEN (errorCode.getD ErrorCodeEnum.AUTH_403) details stack

def mkDatabaseException (message : Option String) (errorCode : Option String)
    (details : Option Dval) (stack : Option String) : AppErrorData :=
  mkAppErrorNamed "DatabaseException"
    (message.getD "A database error occurred. Please try again later")
    HTTPSTATUS.INTERNAL_SERVER_ERROR (errorCode.getD ErrorCodeEnum.DB_500)
    details stack

def mkDatabaseConnectionException (message : Option String)
    (errorCode : Option String) (details : Option Dval)
    (stack : Option String) : AppErrorData :=
  mkAppErrorNamed "DatabaseConnectionException"
    (message.getD "Unable to connect to the database. Please try again later")
    HTTPSTATUS.SERVICE_UNAVAILABLE
    (errorCode.getD ErrorCodeEnum.DB_CONNECTION_ERROR) details stack

def mkExternalServiceException (message : Option String)
    (errorCode : Option String) (details : Option Dval)
    (stack : Option String) : AppErrorData :=
  mkAppErrorNamed "ExternalServiceException"
    (message.getD "An external service error occurred. Please try again later")
    HTTPSTATUS.BAD_GATEWAY (errorCode.getD ErrorCodeEnum.EXT_API_ERROR)
    details stack

def mkServiceUnavailableException (message : Option String)
    (errorCode : Option String) (details : Option Dval)
    (stack : Option String) : AppErrorData :=
  mkAppErrorNamed "ServiceUnavailableException"
    (message.getD "The service is temporarily unavailable. Please try again later")
    HTTPSTATUS.SERVICE_UNAVAILABLE (errorCode.getD ErrorCodeEnum.EXT_503)
    details stack

def mkGatewayTimeoutException (message : Option String)
    (errorCode : Option String) (details : Option Dval)
    (stack : Option String) : AppErrorData :=
  mkAppErrorNamed "GatewayTimeoutException"
    (message.getD "The request timed out. Please try again later")
    HTTPSTATUS.GATEWAY_TIMEOUT (errorCode.getD ErrorCodeEnum.EXT_504)
    details stack

def mkInternalServerException (message : Option String)
    (errorCode : Option String) (details : Option Dval)
    (stack : Option String) : AppErrorData :=
  mkAppErrorNamed "InternalServerException"
    (message.getD "An internal server error occurred. Please try again later")
    HTTPSTATUS.INTERNAL_SERVER_ERROR (errorCode.getD ErrorCodeEnum.SRV_500)
    details stack

def mkNotImplementedException (message : Option String)
    (errorCode : Option String) (details : Option Dval)
    (stack : Option String) : AppErrorData :=
  mkAppErrorNamed "NotImplementedException"
    (message.getD "This feature is not yet implemented")
    HTTPSTATUS.NOT_IMPLEMENTED (errorCode.getD ErrorCodeEnum.SRV_501)
    details stack

/-- Truth of `err instanceof Error`: every case except a thrown non-Error. -/
def Fault.isErrorB : Fault → Bool
  | .nonError _ => false
  | _ => true

/-- Truth of `err instanceof AppError`. -/
def Fault.isAppErrorB : Fault → Bool
  | .appError _ => true
  | _ => false

/-- Truth of `err instanceof mongoose.Error.ValidationError`. -/
def Fault.isMongooseValidationB : Fault → Bool
  | .mongooseValidation _ _ => true
  | _ => false

/-- Truth of `err instanceof mongoose.Error.CastError`. -/
def Fault.isMongooseCastB : Fault → Bool
  | .mongooseCast _ _ _ => true
  | _ => false

/-- Truth of `err instanceof SyntaxError && "body" in err`. -/
def Fault.isSyntaxWithBodyB : Fault → Bool
  | .jsonSyntaxError hasBody _ => hasBody
  | _ => false

/-- The `code` property of the fault, when present (`"code" in err`). -/
def Fault.codeProp : Fault → Option JsCode
  | .appError _ => none
  | .mongooseValidation _ p => p.code
  | .mongooseCast _ _ p => p.code
  | .jsonSyntaxError _ p => p.code
  | .otherError p => p.code
  | .nonError _ => none

/-- The `statusCode` property of the fault, when present.  An AppError always
has one (its own statusCode field). -/
def Fault.statusCodeProp : Fault → Option Nat
  | .appError a => some a.statusCode
  | .mongooseValidation _ p => p.statusCode
  | .mongooseCast _ _ p => p.statusCode
  | .jsonSyntaxError _ p => p.statusCode
  | .otherError p => p.statusCode
  | .nonError _ => none

/-- The `name` property of the fault; a thrown non-Error has none. -/
def Fault.nameProp : Fault → Option String
  | .appError a => some a.name
  | .mongooseValidation _ p => some p.name
  | .mongooseCast _ _ p => some p.name
  | .jsonSyntaxError _ p => some p.name
  | .otherError p => some p.name
  | .nonError _ => none

/-- The `message` property of the fault. -/
def Fault.messageProp : Fault → String
  | .appError a => a.message
  | .mongooseValidation _ p => p.message
  | .mongooseCast _ _ p => p.message
  | .jsonSyntaxError _ p => p.message
  | .otherError p => p.message
  | .nonError m => m.getD ""

/-- The `stack` property of the fault. -/
def Fault.stackProp : Fault → Option String
  | .appError a => a.stack
  | .mongooseValidation _ p => p.stack
  | .mongooseCast _ _ p => p.stack
  | .jsonSyntaxError _ p => p.stack
  | .otherError p => p.stack
  | .nonError _ => none

/-- The `keyPattern` property of the fault. -/
def Fault.keyPatternProp : Fault → Option (List String)
  | .appError _ => none
  | .mongooseValidation _ p => p.keyPattern
  | .mongooseCast _ _ p => p.keyPattern
  | .jsonSyntaxError _ p => p.keyPattern
  | .otherError p => p.keyPattern
  | .nonError _ => none

/-- Test `err.code === 11000`. -/
def isDupKeyCode : Option JsCode → Bool
  | some (JsCode.num n) => n == 11000
  | _ => false

/-- Test equality of an optional name or string-valued code with a literal. -/
def optStrIs (o : Option String) (s : String) : Bool :=
  match o with
  | some v => v == s
  | none => false

/-- Test whether `err.code` is one of the multer LIMIT_* string codes. -/
def isUploadCode : Option JsCode → Bool
  | some (JsCode.str s) =>
      s == "LIMIT_FILE_SIZE" || s == "LIMIT_FILE_COUNT" ||
      s == "LIMIT_UNEXPECTED_FILE"
  | _ => false

/-- The guard of each of the ten cascade branches of errorHandler, in source
order (index 0 is the AppError branch, index 9 and above the final catch-all
fallback).  The guards are the literal conditions of the if/else-if chain. -/
def rulePredB (i : Nat) (f : Fault) : Bool :=
  match i with
  | 0 => f.isAppErrorB
  | 1 => f.isMongooseValidationB
  | 2 => f.isMongooseCastB
  | 3 => f.isErrorB && isDupKeyCode f.codeProp
  | 4 => f.isSyntaxWithBodyB
  | 5 => f.isErrorB &&
      (optStrIs f.nameProp "JsonWebTokenError" ||
       optStrIs f.nameProp "TokenExpiredError")
  | 6 => f.isErrorB && f.statusCodeProp == some HTTPSTATUS.TOO_MANY_REQUESTS
  | 7 => f.isErrorB && isUploadCode f.codeProp
  | 8 => f.isErrorB &&
      (optStrIs f.nameProp "ECONNREFUSED" || optStrIs f.nameProp "ETIMEDOUT" ||
       optStrIs f.nameProp "ENOTFOUND")
  | _ => true

/-- Index of the first cascade branch whose guard holds: the if/else-if chain
of errorHandler evaluated top to bottom. -/
def firstIdx (f : Fault) : Nat :=
  if rulePredB 0 f then 0
  else if rulePredB 1 f then 1
  else if rulePredB 2 f then 2
  else if rulePredB 3 f then 3
  else if rulePredB 4 f then 4
  else if rulePredB 5 f then 5
  else if rulePredB 6 f then 6
  else if rulePredB 7 f then 7
  else if rulePredB 8 f then 8
  else 9

/-- Classification output: the mutable locals statusCode, errorCode, message
and details of errorHandler after the cascade has run. -/
structure ClassOut where
  statusCode : Nat
  errorCode : String
  message : String
  details : Option Dval

/-- The initial values of the errorHandler locals, which the final fallback
branch leaves in place (overriding only the message when the fault is an
Error with a non-empty message). -/
def defaultClassOut : ClassOut :=
  { statusCode := HTTPSTATUS.INTERNAL_SERVER_ERROR,
    errorCode := ErrorCodeEnum.SRV_500,
    message := "An unexpected error occurred", details := none }

/-- The body of cascade branch `i` applied to fault `f` (only reached by
classify when branch `i` is the first whose guard holds). -/
def applyRule (i : Nat) (f : Fault) : ClassOut :=
  match i, f with
  | 0, .appError a =>
      { statusCode := a.statusCode, errorCode := a.errorCode,
        message := a.message, details := a.details }
  | 1, .mongooseValidation errs _ =>
      { statusCode := HTTPSTATUS.BAD_REQUEST,
        errorCode := ErrorCodeEnum.DB_VALIDATION_ERROR,
        message := "Validation failed",
        details := some (Dval.arr (errs.map fun e =>
          Dval.obj [("field", Dval.str e.path), ("message", Dval.str e.message)])) }
  | 2, .mongooseCast path value _ =>
      { statusCode := HTTPSTATUS.BAD_REQUEST,
        errorCode := ErrorCodeEnum.VAL_INVALID_FORMAT,
        message := "Invalid " ++ path ++ ": " ++ value, details := none }
  | 3, g =>
      { statusCode := HTTPSTATUS.CONFLICT,
        errorCode := ErrorCodeEnum.DB_DUPLICATE_KEY,
        message := "A resource with this value already exists",
        details := g.keyPatternProp.map fun ks =>
          Dval.obj [("duplicateFields", Dval.arr (ks.map Dval.str))] }
  | 4, _ =>
      { statusCode := HTTPSTATUS.BAD_REQUEST, errorCode := ErrorCodeEnum.VAL_400,
        message := "Invalid JSON in request body", details := none }
  | 5, g =>
      { statusCode := HTTPSTATUS.UNAUTHORIZED,
        errorCode := ErrorCodeEnum.AUTH_INVALID_TOKEN,
        message := if optStrIs g.nameProp "TokenExpiredError" then
            "Your session has expired. Please log in again"
          else "Invalid authentication token",
        details := none }
  | 6, _ =>
      { statusCode := HTTPSTATUS.TOO_MANY_REQUESTS,
        errorCode := ErrorCodeEnum.RATE_429,
        message := "Too many requests. Please try again later", details := none }
  | 7, g =>
      { statusCode := HTTPSTATUS.BAD_REQUEST,
        errorCode := ErrorCodeEnum.FILE_UPLOAD_ERROR,
        message := if g.codeProp == some (JsCode.str "LIMIT_FILE_SIZE") then
            "File size exceeds the maximum allowed limit"
          else "File upload error",
        details := none }
  | 8, _ =>
      { statusCode := HTTPSTATUS.SERVICE_UNAVAILABLE,
        errorCode := ErrorCodeEnum.EXT_SERVICE_UNAVAILABLE,
        message := "External service is unavailable. Please try again later",
        details := none }
  | 9, g =>
      { defaultClassOut with
        message := if g.isErrorB && g.messageProp != "" then g.messageProp
          else "An unexpected error occurred" }
  | _, _ => defaultClassOut

/-- The full cascade: first guard that holds wins, its branch body runs. -/
def classify (f : Fault) : ClassOut := applyRule (firstIdx f) f

/-- Computation of `error.name || "Error"`; the `error` local of errorHandler
is always the incoming fault itself (line 49, reassigned only back to `err`). -/
def errNameOf (f : Fault) : String :=
  match f.nameProp with
  | some n => if n != "" then n else "Error"
  | none => "Error"

/-- Request metadata consumed by the middleware: method and originalUrl. -/
structure Req where
  method : String
  originalUrl : String

/-- The standardized error response body (ErrorResponse interface). -/
structure ErrorResponse where
  errorName : String
  errorCode : String
  httpStatus : Nat
  message : String
  details : Option Dval
  timestamp : String
  path : String

/-- A sent reply: the wire status passed to `res.status` and the JSON body. -/
structure HttpReply where
  wireStatus : Nat
  body : ErrorResponse

/-- JavaScript object-spread of an arbitrary value, as used by
`{...(errorResponse.details), stack}`: spreading an object yields its fields,
spreading an array or a string yields index-keyed entries, spreading anything
else yields nothing. -/
def spreadFields : Option Dval → List (String × Dval)
  | some (Dval.obj fs) => fs
  | some (Dval.arr xs) => xs.enum.map fun p => (toString p.1, p.2)
  | some (Dval.str s) =>
      s.toList.enum.map fun p => (toString p.1, Dval.str (String.mk [p.2]))
  | _ => []

/-- Rebuild the details object with the stack trace appended; a later `stack`
key wins over any spread-in one, as in a JavaScript object literal. -/
def mergeStack (d : Option Dval) (stack : String) : Dval :=
  Dval.obj ((spreadFields d).filter (fun kv => kv.1 != "stack") ++
    [("stack", Dval.str stack)])

/-- The errorHandler middleware (src/middlewares/asyncHandler.middleware.ts,
lines 43 to 184): run the cascade, then build the response, appending the
stack trace into details only when NODE_ENV is "development" and the fault is
an Error instance with a truthy stack. -/
def errorHandler (env : String) (err : Fault) (req : Req) (now : String) :
    HttpReply :=
  let c := classify err
  let devStack : Option String :=
    match err.stackProp with
    | some s =>
        if env == "development" && err.isErrorB && s != "" then some s else none
    | none => none
  let details : Option Dval :=
    match devStack with
    | some s => some (mergeStack c.details s)
    | none => c.details
  { wireStatus := c.statusCode,
    body := { errorName := errNameOf err, errorCode := c.errorCode,
              httpStatus := c.statusCode, message := c.message,
              details := details, timestamp := now, path := req.originalUrl } }

/-- The notFoundHandler middleware (src/middlewares/notFound.middleware.ts). -/
def notFoundHandler (req : Req) (now : String) : HttpReply :=
  { wireStatus := HTTPSTATUS.NOT_FOUND,
    body := { errorName := "NotFoundError", errorCode := ErrorCodeEnum.USR_404,
              httpStatus := HTTPSTATUS.NOT_FOUND,
              message := "The requested endpoint " ++ req.method ++ " " ++
                req.originalUrl ++ " was not found",
              details := none, timestamp := now, path := req.originalUrl } }

/-- Outcome of invoking a wrapped controller on a request: it either returns a
promise that resolves (having possibly produced a response), returns a promise
that rejects with a fault, or throws synchronously. -/
inductive ControllerOutcome where
  | resolves (responded : Bool)
  | rejects (e : Fault)
  | throwsSync (e : Fault)

/-- The asyncHandler wrapper (src/middlewares/asyncHandler.middleware.ts,
lines 9 to 17): `try { await controller(...) } catch (error) { next(error) }`.
The result lists the faults passed to `next`, in order.  Both a synchronous
throw and an awaited rejection land in the catch block; a resolved controller
reaches the end of the try block and `next` is never called. -/
def asyncHandlerRun (controller : Req → ControllerOutcome) (req : Req) :
    List Fault :=
  match controller req with
  | .resolves _ => []
  | .rejects e => [e]
  | .throwsSync e => [e]

/-- The getEnv utility (src/common/utils/get-env.ts): nullish-coalesce the
looked-up variable with the default, then throw when the chosen value is
absent or empty (both are falsy). -/
def getEnv (env : String → Option String) (key : String)
    (defaultValue : Option String) : Except String String :=
  let val : Option String :=
    match env key with
    | some v => some v
    | none => defaultValue
  match val with
  | some v =>
      if v != "" then Except.ok v
      else Except.error ("Missing env variable: " ++ key)
  | none => Except.error ("Missing env variable: " ++ key)

/-- The process-level events listened to in
src/common/utils/process-handlers.ts. -/
inductive ProcEvent where
  | unhandledRejection
  | uncaughtException
  | sigterm
  | sigint
deriving DecidableEq

/-- The four listener closures registered by the process handler module. -/
inductive ProcListener where
  | onUnhandledRejection
  | onUncaughtException
  | onSigterm
  | onSigint
deriving DecidableEq

/-- Mutable process state: the ordered listener registrations made through
`process.on` (Node appends each registration to the event listener list). -/
structure ProcState where
  listeners : List (ProcEvent × ProcListener)
deriving DecidableEq

/-- Node `process.on`: append a listener for an event. -/
def processOn (ev : ProcEvent) (l : ProcListener) (s : ProcState) : ProcState :=
  { listeners := s.listeners ++ [(ev, l)] }

def handleUnhandledRejection (s : ProcState) : ProcState :=
  processOn ProcEvent.unhandledRejection ProcListener.onUnhandledRejection s

def handleUncaughtException (s : ProcState) : ProcState :=
  processOn ProcEvent.uncaughtException ProcListener.onUncaughtException s

def handleSIGTERM (s : ProcState) : ProcState :=
  processOn ProcEvent.sigterm ProcListener.onSigterm s

def handleSIGINT (s : ProcState) : ProcState :=
  processOn ProcEvent.sigint ProcListener.onSigint s

/-- The source function initializeProcessHandlers: register the four handlers
in order (the name is shortened here). -/
def initProcessHandlers (s : ProcState) : ProcState :=
  handleSIGINT (handleSIGTERM (handleUncaughtException (handleUnhandledRejection s)))

/-- Observable process-control effects of a listener body. -/
inductive ProcEffect where
  | scheduleExit (code : Nat) (delayMs : Nat)
  | exitNow (code : Nat)
deriving DecidableEq

/-- The body of each listener: unhandled rejection schedules exit(1) after
1000ms only in production; uncaught exception exits 1 immediately; SIGTERM and
SIGINT exit 0. -/
def listenerEffects (env : String) : ProcListener → List ProcEffect
  | .onUnhandledRejection =>
      if env == "production" then [ProcEffect.scheduleExit 1 1000] else []
  | .onUncaughtException => [ProcEffect.exitNow 1]
  | .onSigterm => [ProcEffect.exitNow 0]
  | .onSigint => [ProcEffect.exitNow 0]

/-- Run every listener registered for an event, in registration order,
concatenating the effects. -/
def emitList (env : String) (ev : ProcEvent) :
    List (ProcEvent × ProcListener) → List ProcEffect
  | [] => []
  | kv :: rest =>
      (if kv.1 = ev then listenerEffects env kv.2 else []) ++
        emitList env ev rest

/-- Emit an event: every registered listener for it runs, in registration
order, and the effects are concatenated. -/
def emitEvent (env : String) (ev : ProcEvent) (s : ProcState) :
    List ProcEffect :=
  emitList env ev s.listeners

/-- The listener that the module registers for each event. -/
def handlerFor : ProcEvent → ProcListener
  | .unhandledRejection => .onUnhandledRejection
  | .uncaughtException => .onUncaughtException
  | .sigterm => .onSigterm
  | .sigint => .onSigint

/-- Whether the response details object carries a top-level stack key. -/
def detailsHasStack : Option Dval → Bool
  | some (Dval.obj fs) => fs.any fun kv => kv.1 == "stack"
  | _ => false

/-- Whether the fault carries a truthy (non-empty) stack string. -/
def stackTruthyB (f : Fault) : Bool :=
  match f.stackProp with
  | some s => s != ""
  | none => false

/-- Cascade branch `i` fires on fault `f`: its guard holds and no earlier
guard does. -/
def firesAt (i : Nat) (f : Fault) : Prop :=
  rulePredB i f = true ∧ ∀ j, j < i → rulePredB j f = false

theorem firstIdx_le (f : Fault) : firstIdx f ≤ 9 := by
  unfold firstIdx
  split_ifs <;> omega

theorem firesAt_firstIdx (f : Fault) : firesAt (firstIdx f) f := by
  unfold firesAt firstIdx
  by_cases h0 : rulePredB 0 f = true
  · rw [if_pos h0]
    exact ⟨h0, fun j hj => absurd hj (Nat.not_lt_zero j)⟩
  have e0 : rulePredB 0 f = false := by simpa using h0
  rw [if_neg h0]
  by_cases h1 : rulePredB 1 f = true
  · rw [if_pos h1]
    exact ⟨h1, by intro j hj; interval_cases j; assumption⟩
  have e1 : rulePredB 1 f = false := by simpa using h1
  rw [if_neg h1]
  by_cases h2 : rulePredB 2 f = true
  · rw [if_pos h2]
    exact ⟨h2, by intro j hj; interval_cases j <;> assumption⟩
  have e2 : rulePredB 2 f = false := by simpa using h2
  rw [if_neg h2]
  by_cases h3 : rulePredB 3 f = true
  · rw [if_pos h3]
    exact ⟨h3, by intro j hj; interval_cases j <;> assumption⟩
  have e3 : rulePredB 3 f = false := by simpa using h3
  rw [if_neg h3]
  by_cases h4 : rulePredB 4 f = true
  · rw [if_pos h4]
    exact ⟨h4, by intro j hj; interval_cases j <;> assumption⟩
  have e4 : rulePredB 4 f = false := by simpa using h4
  rw [if_neg h4]
  by_cases h5 : rulePredB 5 f = true
  · rw [if_pos h5]
    exact ⟨h5, by intro j hj; interval_cases j <;> assumption⟩
  have e5 : rulePredB 5 f = false := by simpa using h5
  rw [if_neg h5]
  by_cases h6 : rulePredB 6 f = true
  · rw [if_pos h6]
    exact ⟨h6, by intro j hj; interval_cases j <;> assumption⟩
  have e6 : rulePredB 6 f = false := by simpa using h6
  rw [if_neg h6]
  by_cases h7 : rulePredB 7 f = true
  · rw [if_pos h7]
    exact ⟨h7, by intro j hj; interval_cases j <;> assumption⟩
  have e7 : rulePredB 7 f = false := by simpa using h7
  rw [if_neg h7]
  by_cases h8 : rulePredB 8 f = true
  · rw [if_pos h8]
    exact ⟨h8, by intro j hj; interval_cases j <;> assumption⟩
  have e8 : rulePredB 8 f = false := by simpa using h8
  rw [if_neg h8]
  exact ⟨rfl, by intro j hj; interval_cases j <;> assumption⟩

theorem firesAt_unique (f : Fault) (i : Nat) (h : firesAt i f) :
    i = firstIdx f := by
  have hf := firesAt_firstIdx f
  rcases Nat.lt_trichotomy i (firstIdx f) with hlt | heq | hgt
  · exact absurd h.1 (by simp [hf.2 i hlt])
  · exact heq
  · exact absurd hf.1 (by simp [h.2 (firstIdx f) hgt])

theorem applyRule_status_bound (i : Nat) (f : Fault) (h1 : 1 ≤ i)
    (h9 : i ≤ 9) :
    400 ≤ (applyRule i f).statusCode ∧ (applyRule i f).statusCode ≤ 599 := by
  interval_cases i <;> cases f <;>
    simp only [applyRule, defaultClassOut, HTTPSTATUS.BAD_REQUEST,
      HTTPSTATUS.CONFLICT, HTTPSTATUS.UNAUTHORIZED,
      HTTPSTATUS.TOO_MANY_REQUESTS, HTTPSTATUS.SERVICE_UNAVAILABLE,
      HTTPSTATUS.INTERNAL_SERVER_ERROR] <;> omega

theorem classify_status_bound_aux (f : Fault) (h0 : rulePredB 0 f = false) :
    400 ≤ (classify f).statusCode ∧ (classify f).statusCode ≤ 599 := by
  have h1 : 1 ≤ firstIdx f := by
    unfold firstIdx
    rw [if_neg (by simp [h0])]
    split_ifs <;> omega
  exact applyRule_status_bound (firstIdx f) f h1 (firstIdx_le f)

theorem classify_status_bound (f : Fault)
    (hA : ∀ a, f = Fault.appError a →
      400 ≤ a.statusCode ∧ a.statusCode ≤ 599) :
    400 ≤ (classify f).statusCode ∧ (classify f).statusCode ≤ 599 := by
  cases f with
  | appError a =>
      have hr := hA a rfl
      simpa [classify, firstIdx, rulePredB, Fault.isAppErrorB, applyRule]
        using hr
  | mongooseValidation errs p => exact classify_status_bound_aux _ rfl
  | mongooseCast path value p => exact classify_status_bound_aux _ rfl
  | jsonSyntaxError hasBody p => exact classify_status_bound_aux _ rfl
  | otherError p => exact classify_status_bound_aux _ rfl
  | nonError m => exact classify_status_bound_aux _ rfl

/-- C1: for every fault, together with any request context, exactly one rule
of the ten-step errorHandler cascade fires (first match wins, in source
order), and the httpStatus of the resulting response lies in [400, 599].  The
statusCode an AppError can carry is typed HttpStatusCodeType in
src/configs/http.config.ts, which is not among the provided sources; per the
data model of the spec (section 3) it is an integer in [400, 599], taken here
as the hypothesis on the appError case. -/
theorem errorHandler_one_rule_fires_status_in_range
    (env : String) (f : Fault) (req : Req) (now : String)
    (hA : ∀ a, f = Fault.appError a →
      400 ≤ a.statusCode ∧ a.statusCode ≤ 599) :
    (∃! i, firesAt i f) ∧
    400 ≤ (errorHandler env f req now).body.httpStatus ∧
    (errorHandler env f req now).body.httpStatus ≤ 599 := by
  have hb := classify_status_bound f hA
  have he : (errorHandler env f req now).body.httpStatus =
      (classify f).statusCode := rfl
  refine ⟨⟨firstIdx f, firesAt_firstIdx f, fun i hi => firesAt_unique f i hi⟩,
    ?_, ?_⟩
  · rw [he]; exact hb.1
  · rw [he]; exact hb.2

/-- C1 witness at a concrete input: a ValidationException constructed with
all defaults, raised on a production GET request. -/
theorem errorHandler_one_rule_fires_status_in_range_witness :
    (∃! i, firesAt i
      (Fault.appError (mkValidationException none none none none))) ∧
    400 ≤ (errorHandler "production"
      (Fault.appError (mkValidationException none none none none))
      { method := "GET", originalUrl := "/x" } "2026-01-01").body.httpStatus ∧
    (errorHandler "production"
      (Fault.appError (mkValidationException none none none none))
      { method := "GET", originalUrl := "/x" } "2026-01-01").body.httpStatus
      ≤ 599 :=
  errorHandler_one_rule_fires_status_in_range "production" _ _ _
    (by
      intro a h
      injection h with h2
      subst h2
      decide)

/-- C2 counterexample: in production mode, two foreign faults that match only
the final fallback rule and differ only in their internal message produce
different response messages, each equal to the raw internal message itself
(errorHandler line 156 keeps the foreign message even outside debug mode). -/
theorem production_fallback_leaks_raw_message :
    (errorHandler "production" (Fault.otherError
      { name := "Error", message := "internal secret A", stack := none,
        code := none, statusCode := none, keyPattern := none })
      { method := "GET", originalUrl := "/x" } "t").body.message =
      "internal secret A" ∧
    (errorHandler "production" (Fault.otherError
      { name := "Error", message := "internal secret A", stack := none,
        code := none, statusCode := none, keyPattern := none })
      { method := "GET", originalUrl := "/x" } "t").body.message ≠
    (errorHandler "production" (Fault.otherError
      { name := "Error", message := "internal secret B", stack := none,
        code := none, statusCode := none, keyPattern := none })
      { method := "GET", originalUrl := "/x" } "t").body.message := by
  decide

/-- C2 amended: for every fault classified by the final fallback rule, the
response message equals the raw message of the fault whenever the fault is an
Error with a non-empty message, in every mode including production; only an
absent or empty message falls back to the generic string. -/
theorem fallback_message_is_raw_fault_message
    (env : String) (f : Fault) (req : Req) (now : String)
    (h : firstIdx f = 9) :
    (errorHandler env f req now).body.message =
      (if f.isErrorB && f.messageProp != "" then f.messageProp
       else "An unexpected error occurred") := by
  have he : (errorHandler env f req now).body.message =
      (applyRule (firstIdx f) f).message := rfl
  rw [he, h]
  cases f <;> rfl

/-- C2 amended witness: a concrete unclassified fault in production mode has
its raw message reproduced verbatim. -/
theorem fallback_message_is_raw_fault_message_witness :
    (errorHandler "production" (Fault.otherError
      { name := "Error", message := "boom", stack := none, code := none,
        statusCode := none, keyPattern := none })
      { method := "GET", originalUrl := "/x" } "t").body.message = "boom" :=
  (fallback_message_is_raw_fault_message "production"
    (Fault.otherError
      { name := "Error", message := "boom", stack := none,
        code := none, statusCode := none, keyPattern := none })
    { method := "GET", originalUrl := "/x" } "t" (by decide)).trans (by decide)

/-- C3 counterexample: calling initProcessHandlers a second time is neither a
no-op nor an error: it registers every listener a second time, and the
uncaught exception event then runs the exit action twice. -/
theorem initProcessHandlers_not_idempotent :
    (emitEvent "production" ProcEvent.uncaughtException
      (initProcessHandlers (initProcessHandlers { listeners := [] }))).length
      = 2 ∧
    initProcessHandlers (initProcessHandlers { listeners := [] }) ≠
      initProcessHandlers { listeners := [] } := by
  decide

theorem emitList_append (env : String) (ev : ProcEvent)
    (l1 l2 : List (ProcEvent × ProcListener)) :
    emitList env ev (l1 ++ l2) = emitList env ev l1 ++ emitList env ev l2 := by
  induction l1 with
  | nil => simp [emitList]
  | cons kv rest ih => simp [emitList, ih]

/-- C3 amended: every call of initProcessHandlers appends one fresh listener
per process-level event, so after a single registration on a clean process
each event fires its action exactly once, while each further call makes every
event fire one more time; the at-most-once guarantee of the claim holds only
for a single initialization call. -/
theorem initProcessHandlers_single_registration_fires_once
    (env : String) (ev : ProcEvent) :
    (∀ s : ProcState, emitEvent env ev (initProcessHandlers s) =
      emitEvent env ev s ++ listenerEffects env (handlerFor ev)) ∧
    emitEvent env ev (initProcessHandlers { listeners := [] }) =
      listenerEffects env (handlerFor ev) := by
  constructor
  · intro s
    cases ev <;>
      simp [emitEvent, initProcessHandlers, handleUnhandledRejection,
        handleUncaughtException, handleSIGTERM, handleSIGINT, processOn,
        emitList_append, emitList, handlerFor]
  · cases ev <;>
      simp [emitEvent, initProcessHandlers, handleUnhandledRejection,
        handleUncaughtException, handleSIGTERM, handleSIGINT, processOn,
        emitList, handlerFor]

/-- The eighteen operational fault variants of the table in section 4.1. -/
inductive OperationalVariant where
  | badRequest
  | unauthorized
  | forbidden
  | notFound
  | methodNotAllowed
  | conflict
  | unprocessableEntity
  | tooManyRequests
  | validation
  | authentication
  | authorization
  | database
  | databaseConnection
  | externalService
  | serviceUnavailable
  | gatewayTimeout
  | internalServer
  | notImplemented

/-- Dispatch to the source constructor of each variant. -/
def mkVariant (v : OperationalVariant) (message : Option String)
    (errorCode : Option String) (details : Option Dval)
    (stack : Option String) : AppErrorData :=
  match v with
  | .badRequest => mkBadRequestException message errorCode details stack
  | .unauthorized => mkUnauthorizedException message errorCode details stack
  | .forbidden => mkForbiddenException message errorCode details stack
  | .notFound => mkNotFoundException message errorCode details stack
  | .methodNotAllowed => mkMethodNotAllowedException message errorCode details stack
  | .conflict => mkConflictException message errorCode details stack
  | .unprocessableEntity => mkUnprocessableEntityException message errorCode details stack
  | .tooManyRequests => mkTooManyRequestsException message errorCode details stack
  | .validation => mkValidationException message errorCode details stack
  | .authentication => mkAuthenticationException message errorCode details stack
  | .authorization => mkAuthorizationException message errorCode details stack
  | .database => mkDatabaseException message errorCode details stack
  | .databaseConnection => mkDatabaseConnectionException message errorCode details stack
  | .externalService => mkExternalServiceException message errorCode details stack
  | .serviceUnavailable => mkServiceUnavailableException message errorCode details stack
  | .gatewayTimeout => mkGatewayTimeoutException message errorCode details stack
  | .internalServer => mkInternalServerException message errorCode details stack
  | .notImplemented => mkNotImplementedException message errorCode details stack

/-- The default status of each variant per the table in section 4.1 of the
spec. -/
def variantDefaultStatus : OperationalVariant → Nat
  | .badRequest => 400
  | .unauthorized => 401
  | .forbidden => 403
  | .notFound => 404
  | .methodNotAllowed => 405
  | .conflict => 409
  | .unprocessableEntity => 422
  | .tooManyRequests => 429
  | .validation => 400
  | .authentication => 401
  | .authorization => 403
  | .database => 500
  | .databaseConnection => 503
  | .externalService => 502
  | .serviceUnavailable => 503
  | .gatewayTimeout => 504
  | .internalServer => 500
  | .notImplemented => 501

/-- The default error code of each variant per the table in section 4.1 of
the spec, rendered with the source enum identifiers (the spec uses the
descriptive aliases client-bad-request for USR_400, auth-unauthorized for
AUTH_401, auth-forbidden for AUTH_403, client-not-found for USR_404,
client-method-not-allowed for USR_405, client-conflict for USR_409,
client-unprocessable for USR_422, rate-limit-exceeded for RATE_429,
validation-failed for VAL_400, storage-error for DB_500,
storage-connection-error for DB_CONNECTION_ERROR, external-api-error for
EXT_API_ERROR, external-unavailable for EXT_503, external-timeout for
EXT_504, server-internal-error for SRV_500, server-not-implemented for
SRV_501). -/
def variantDefaultCode : OperationalVariant → String
  | .badRequest => "USR_400"
  | .unauthorized => "AUTH_401"
  | .forbidden => "AUTH_403"
  | .notFound => "USR_404"
  | .methodNotAllowed => "USR_405"
  | .conflict => "USR_409"
  | .unprocessableEntity => "USR_422"
  | .tooManyRequests => "RATE_429"
  | .validation => "VAL_400"
  | .authentication => "AUTH_401"
  | .authorization => "AUTH_403"
  | .database => "DB_500"
  | .databaseConnection => "DB_CONNECTION_ERROR"
  | .externalService => "EXT_API_ERROR"
  | .serviceUnavailable => "EXT_503"
  | .gatewayTimeout => "EXT_504"
  | .internalServer => "SRV_500"
  | .notImplemented => "SRV_501"

/-- C4: constructing any operational variant without an explicit error code
(none of the variant constructors even accepts an explicit status) yields
exactly the default status and code pair of the table in section 4.1, the
variant marks itself operational, and message and details remain
caller-overridable without disturbing the defaults. -/
theorem operational_variant_defaults (v : OperationalVariant)
    (st : Option String) :
    (mkVariant v none none none st).statusCode = variantDefaultStatus v ∧
    (mkVariant v none none none st).errorCode = variantDefaultCode v ∧
    (mkVariant v none none none st).isOperational = true ∧
    ∀ (m : String) (d : Dval),
      (mkVariant v (some m) none (some d) st).message = m ∧
      (mkVariant v (some m) none (some d) st).details = some d ∧
      (mkVariant v (some m) none (some d) st).statusCode =
        variantDefaultStatus v ∧
      (mkVariant v (some m) none (some d) st).errorCode =
        variantDefaultCode v := by
  cases v <;> exact ⟨rfl, rfl, rfl, fun m d => ⟨rfl, rfl, rfl, rfl⟩⟩

/-- C5: the asyncHandler boundary forwards a fault to `next` exactly once
whenever the wrapped controller throws synchronously or its promise rejects,
never suppresses a fault, and never calls `next` with a fault when the
controller resolved, even after producing a response. -/
theorem asyncHandler_forwards_faults_exactly_once
    (controller : Req → ControllerOutcome) (req : Req) :
    (∀ e : Fault,
      controller req = ControllerOutcome.throwsSync e ∨
        controller req = ControllerOutcome.rejects e →
      asyncHandlerRun controller req = [e]) ∧
    (∀ b : Bool, controller req = ControllerOutcome.resolves b →
      asyncHandlerRun controller req = []) ∧
    (∀ e : Fault, e ∈ asyncHandlerRun controller req →
      controller req = ControllerOutcome.throwsSync e ∨
        controller req = ControllerOutcome.rejects e) := by
  refine ⟨?_, ?_, ?_⟩
  · intro e he
    rcases he with h | h <;> simp [asyncHandlerRun, h]
  · intro b h
    simp [asyncHandlerRun, h]
  · intro e he
    unfold asyncHandlerRun at he
    cases hc : controller req with
    | resolves b => rw [hc] at he; simp at he
    | rejects e2 =>
        rw [hc] at he
        simp at he
        subst he
        right
        rfl
    | throwsSync e2 =>
        rw [hc] at he
        simp at he
        subst he
        left
        rfl

/-- C5 witness: a rejecting controller has its fault forwarded once. -/
theorem asyncHandler_forwards_faults_exactly_once_witness :
    asyncHandlerRun
      (fun _ => ControllerOutcome.rejects (Fault.nonError (some "boom")))
      { method := "GET", originalUrl := "/x" } =
      [Fault.nonError (some "boom")] :=
  (asyncHandler_forwards_faults_exactly_once _ _).1 _ (Or.inr rfl)

/-- C6 counterexample: with debug off (production mode) a stack field can
still appear in the response details: errorHandler forwards AppError details
verbatim, so an operational fault whose caller-supplied details object
carries a stack key surfaces it even though NODE_ENV is not development. -/
theorem production_response_can_carry_stack_field :
    detailsHasStack (errorHandler "production"
      (Fault.appError (mkAppError "boom" none none
        (some (Dval.obj [("stack", Dval.str "leaked trace")])) (some "trace")))
      { method := "GET", originalUrl := "/x" } "t").body.details = true := by
  decide

/-- C6 amended: errorHandler appends a stack entry to the response details
exactly in development mode: when NODE_ENV is "development" and the fault is
an Error carrying a truthy stack, the details contain a stack key; in every
other configuration (production or any other value) the details are exactly
the cascade output, so a stack key appears then only when the details
produced by the cascade already carried one. -/
theorem stack_appended_only_in_development
    (env : String) (f : Fault) (req : Req) (now : String) :
    (env = "development" → f.isErrorB = true → stackTruthyB f = true →
      detailsHasStack (errorHandler env f req now).body.details = true) ∧
    (env ≠ "development" →
      (errorHandler env f req now).body.details = (classify f).details) := by
  constructor
  · intro he hi hs
    subst he
    cases hst : f.stackProp with
    | none => simp [stackTruthyB, hst] at hs
    | some s =>
        simp only [stackTruthyB, hst] at hs
        simp [errorHandler, hst, hi, hs, mergeStack, detailsHasStack]
  · intro hne
    have hb : (env == "development") = false := by
      simp [beq_eq_false_iff_ne, hne]
    cases hst : f.stackProp <;> simp [errorHandler, hst, hb]

/-- C6 amended witness: in development mode a fault carrying a stack yields a
stack key in the details, while in a non-development, non-production mode the
details are the untouched cascade output. -/
theorem stack_appended_only_in_development_witness :
    detailsHasStack (errorHandler "development"
      (Fault.otherError
        { name := "TypeError", message := "boom", stack := some "trace",
          code := none, statusCode := none, keyPattern := none })
      { method := "GET", originalUrl := "/x" } "t").body.details = true ∧
    (errorHandler "test"
      (Fault.otherError
        { name := "TypeError", message := "boom", stack := some "trace",
          code := none, statusCode := none, keyPattern := none })
      { method := "GET", originalUrl := "/x" } "t").body.details =
      (classify (Fault.otherError
        { name := "TypeError", message := "boom", stack := some "trace",
          code := none, statusCode := none, keyPattern := none })).details :=
  ⟨(stack_appended_only_in_development "development"
      (Fault.otherError
        { name := "TypeError", message := "boom", stack := some "trace",
          code := none, statusCode := none, keyPattern := none })
      { method := "GET", originalUrl := "/x" } "t").1 rfl rfl (by decide),
   (stack_appended_only_in_development "test"
      (Fault.otherError
        { name := "TypeError", message := "boom", stack := some "trace",
          code := none, statusCode := none, keyPattern := none })
      { method := "GET", originalUrl := "/x" } "t").2 (by decide)⟩

/-- C7: a foreign fault carrying numeric code 11000 that is neither an
operational AppError nor a data-layer validation or cast failure is
classified 409 with code DB_DUPLICATE_KEY (the storage-duplicate-key alias of
the spec), and when it exposes a keyPattern the details list the pattern's
field names under duplicateFields. -/
theorem duplicate_key_classified_409 (f : Fault)
    (hcode : f.codeProp = some (JsCode.num 11000))
    (h0 : f.isAppErrorB = false) (h1 : f.isMongooseValidationB = false)
    (h2 : f.isMongooseCastB = false) :
    (classify f).statusCode = 409 ∧
    (classify f).errorCode = ErrorCodeEnum.DB_DUPLICATE_KEY ∧
    (classify f).message = "A resource with this value already exists" ∧
    ∀ ks : List String, f.keyPatternProp = some ks →
      (classify f).details =
        some (Dval.obj [("duplicateFields", Dval.arr (ks.map Dval.str))]) := by
  cases f with
  | appError a => simp [Fault.isAppErrorB] at h0
  | mongooseValidation errs p => simp [Fault.isMongooseValidationB] at h1
  | mongooseCast path value p => simp [Fault.isMongooseCastB] at h2
  | nonError m => simp [Fault.codeProp] at hcode
  | jsonSyntaxError hasBody p =>
      simp only [Fault.codeProp] at hcode
      have hf : firstIdx (Fault.jsonSyntaxError hasBody p) = 3 := by
        simp [firstIdx, rulePredB, Fault.isAppErrorB,
          Fault.isMongooseValidationB, Fault.isMongooseCastB, Fault.isErrorB,
          isDupKeyCode, Fault.codeProp, hcode]
      refine ⟨by simp [classify, hf, applyRule, HTTPSTATUS.CONFLICT],
        by simp [classify, hf, applyRule],
        by simp [classify, hf, applyRule], ?_⟩
      intro ks hks
      simp only [Fault.keyPatternProp] at hks
      simp [classify, hf, applyRule, Fault.keyPatternProp, hks]
  | otherError p =>
      simp only [Fault.codeProp] at hcode
      have hf : firstIdx (Fault.otherError p) = 3 := by
        simp [firstIdx, rulePredB, Fault.isAppErrorB,
          Fault.isMongooseValidationB, Fault.isMongooseCastB, Fault.isErrorB,
          Fault.isSyntaxWithBodyB, isDupKeyCode, Fault.codeProp, hcode]
      refine ⟨by simp [classify, hf, applyRule, HTTPSTATUS.CONFLICT],
        by simp [classify, hf, applyRule],
        by simp [classify, hf, applyRule], ?_⟩
      intro ks hks
      simp only [Fault.keyPatternProp] at hks
      simp [classify, hf, applyRule, Fault.keyPatternProp, hks]

/-- C7 witness: a storage duplicate-key fault on field email maps to 409,
DB_DUPLICATE_KEY, with duplicateFields listing email. -/
theorem duplicate_key_classified_409_witness :
    (classify (Fault.otherError
      { name := "MongoServerError", message := "E11000 duplicate key error",
        stack := none, code := some (JsCode.num 11000), statusCode := none,
        keyPattern := some ["email"] })).statusCode = 409 ∧
    (classify (Fault.otherError
      { name := "MongoServerError", message := "E11000 duplicate key error",
        stack := none, code := some (JsCode.num 11000), statusCode := none,
        keyPattern := some ["email"] })).errorCode =
      ErrorCodeEnum.DB_DUPLICATE_KEY ∧
    (classify (Fault.otherError
      { name := "MongoServerError", message := "E11000 duplicate key error",
        stack := none, code := some (JsCode.num 11000), statusCode := none,
        keyPattern := some ["email"] })).details =
      some (Dval.obj [("duplicateFields", Dval.arr [Dval.str "email"])]) := by
  have h := duplicate_key_classified_409 (Fault.otherError
    { name := "MongoServerError", message := "E11000 duplicate key error",
      stack := none, code := some (JsCode.num 11000), statusCode := none,
      keyPattern := some ["email"] }) rfl rfl rfl rfl
  exact ⟨h.1, h.2.1, by simpa using h.2.2.2 ["email"] rfl⟩

/-- C8: for every unmatched-route request the notFoundHandler replies with
wire status 404, body httpStatus 404, error code USR_404 (the
client-not-found alias of the spec) and a message interpolating the request
method and path. -/
theorem notFoundHandler_404_response (req : Req) (now : String) :
    (notFoundHandler req now).wireStatus = 404 ∧
    (notFoundHandler req now).body.httpStatus = 404 ∧
    (notFoundHandler req now).body.errorCode = ErrorCodeEnum.USR_404 ∧
    (notFoundHandler req now).body.message =
      "The requested endpoint " ++ req.method ++ " " ++ req.originalUrl ++
        " was not found" :=
  ⟨rfl, rfl, rfl, rfl⟩

/-- C9: getEnv returns the environment value when it is set and non-empty,
otherwise the non-empty default when the variable is unset, and throws
exactly when the nullish-coalesced value is absent or empty; in particular, a
variable set to the empty string throws even when a non-empty default was
supplied, because the default is only consulted for an unset variable. -/
theorem getEnv_value_default_throw (env : String → Option String)
    (key : String) (d : Option String) :
    (∀ v : String, env key = some v → v ≠ "" →
      getEnv env key d = Except.ok v) ∧
    (∀ w : String, env key = none → d = some w → w ≠ "" →
      getEnv env key d = Except.ok w) ∧
    (env key = some "" →
      getEnv env key d = Except.error ("Missing env variable: " ++ key)) ∧
    (env key = none → (d = none ∨ d = some "") →
      getEnv env key d = Except.error ("Missing env variable: " ++ key)) := by
  refine ⟨?_, ?_, ?_, ?_⟩
  · intro v hv hne
    simp [getEnv, hv, hne]
  · intro w hk hd hne
    simp [getEnv, hk, hd, hne]
  · intro hv
    simp [getEnv, hv]
  · intro hk hd
    rcases hd with hd | hd <;> simp [getEnv, hk, hd]

/-- C9 witness: a variable set to the empty string throws although a
non-empty default was supplied. -/
theorem getEnv_value_default_throw_witness :
    getEnv (fun _ => some "") "PORT" (some "8000") =
      Except.error ("Missing env variable: " ++ "PORT") :=
  (getEnv_value_default_throw (fun _ => some "") "PORT" (some "8000")).2.2.1 rfl

/-- C10: for every fault (with any mode and request) and for every
unmatched-route request, the wire status passed to `res.status` equals the
httpStatus field of the JSON body, in errorHandler and notFoundHandler
alike. -/
theorem wire_status_equals_body_httpStatus
    (env : String) (f : Fault) (req : Req) (now : String) (req2 : Req)
    (now2 : String) :
    (errorHandler env f req now).wireStatus =
      (errorHandler env f req now).body.httpStatus ∧
    (notFoundHandler req2 now2).wireStatus =
      (notFoundHandler req2 now2).body.httpStatus :=
  ⟨rfl, rfl⟩
